import Mathlib

/-!
Verification of the `aidb` relational-database core against its
natural-language specification.

The Rust sources are shallowly embedded as Lean definitions, one section
per component:

* `Aidb.Exec`  — the `Value` type from `data.rs` and the iterator executor
  from `select.rs` (`PhysicalPlan`, `execute_select`);
* `Aidb.Planner` — the SQL `SELECT` AST from `sql.rs` and the logical /
  physical planner from `select.rs`;
* `Aidb.Drv`  — the block/schema caches, dirty sets, the transaction
  state machine and the statement driver from `storage.rs`, `query.rs`
  and `lib.rs`;
* `Aidb.Txt`  — the text-spill heap from `data.rs` (`insert_text`);
* `Aidb.Bt`   — the B+tree index from `btree.rs`.

Machine integers are modelled as `Nat`/`Int` (the verified paths never
reach a wrap-around point on a 64-bit counter, and the single `+ 1` on
`i64` happens only under an explicit `!= i64::MAX` guard, as in the
source); byte buffers are modelled as `List Nat`; fallible Rust code
(`Result`, panics, binrw read/write failures) returns `Except String`.
-/

namespace Aidb

/-- `DataType` from `data.rs`. -/
inductive DataType where
  | Integer
  | Real
  | Text
deriving DecidableEq

/-- `Value` from `data.rs`.  The Rust payload of `Real` is an `f64`; it is
modelled as `Rat` here.  None of the verified claims depend on IEEE-754
specifics (`NaN`, signed zero); on every other value `f64` equality is the
equality of the represented numbers, which `Rat` equality mirrors. -/
inductive Value where
  | Null
  | Integer (v : Int)
  | Real (v : Rat)
  | Text (v : String)
deriving DecidableEq

/-- `Value::datatype` from `data.rs`. -/
def Value.datatype : Value → Option DataType
  | .Null => none
  | .Integer _ => some .Integer
  | .Real _ => some .Real
  | .Text _ => some .Text

/-- The `#[derive(PartialEq)]` equality on `Value` (`data.rs` line 55):
structural, variant-respecting equality.  In particular
`Null == Null` evaluates to `true`. -/
def value_eq (a b : Value) : Bool := decide (a = b)

/-- A row is an ordered sequence of values, one per output column
(`query.rs`: `pub type Row = Vec<Value>`). -/
abbrev Row := List Value

namespace Exec

/-- `SelectionConstraint` from `select.rs`. -/
inductive SelectionConstraint where
  | EqColumn (lhs rhs : Nat)
  | EqConst (index : Nat) (value : Value)
deriving DecidableEq

/-- `ProjectionColumn` from `select.rs`. -/
inductive ProjectionColumn where
  | Column (index : Nat)
  | Const (value : Value)
deriving DecidableEq

/-- The predicate the `Selection` arm of `execute_select` applies to each
constraint (`select.rs` lines 793-796): `EqColumn(i,j)` compares the row
values at the two positions, `EqConst(i,v)` compares the row value at `i`
with the literal, both with derived `Value` equality.  Rust indexes the
row directly (a planner-guaranteed in-bounds access); out-of-range
indices are given the default `Null` here. -/
def constraint_holds (row : Row) : SelectionConstraint → Bool
  | .EqColumn lhs rhs => value_eq (row.getD lhs .Null) (row.getD rhs .Null)
  | .EqConst index value => value_eq (row.getD index .Null) value

/-- Executor plan tree with its per-node resumable state, mirroring
`PhysicalPlan` in `select.rs`.  The two row-producing leaves (`Scan`,
`BTreeExact`) pull their rows out of the block store; at executor level
each behaves as a resumable source of a fixed finite row sequence
(`Scan` yields the valid rows of its data chain in slot order and
returns to `Initialized` when the chain is exhausted, `BTreeExact`
yields its at-most-one matching row), so both are modelled by the
`Source` leaf carrying the row sequence the store holds for the node,
with the cursor as state.  `BTreeRange` is never produced by
`build_physical_plan` and its `select_range_btree` backend is modelled
in the `Bt` section. -/
inductive Plan where
  | Source (rows : List Row) (pos : Nat)
  | Projection (columns : List ProjectionColumn) (inner : Plan)
  | CartesianProduct (inner : List Plan) (first_run : Bool) (previous_row : List Row)
  | Selection (constraints : List SelectionConstraint) (inner : Plan)
  | Limit (limit : Nat) (inner : Plan) (state : Nat)

mutual

/-- `PhysicalPlan::reset` from `select.rs` lines 135-163. -/
def Plan.reset : Plan → Plan
  | .Source rows _ => .Source rows 0
  | .Projection cols inner => .Projection cols inner.reset
  | .CartesianProduct inner _ _ => .CartesianProduct (Plan.reset_list inner) true []
  | .Selection cs inner => .Selection cs inner.reset
  | .Limit l inner _ => .Limit l inner.reset 0

/-- Reset of every child of a `CartesianProduct`. -/
def Plan.reset_list : List Plan → List Plan
  | [] => []
  | p :: ps => p.reset :: Plan.reset_list ps

end

/-- Evaluation of one projected output column (`select.rs` lines 739-745). -/
def project_column (row : Row) : ProjectionColumn → Value
  | .Column index => row.getD index .Null
  | .Const value => value

mutual

/-- `execute_select` from `select.rs` lines 639-815: produce the next row
(or `none`) and the successor state of the plan.  The `Selection` arm's
retry loop and the recursive pulls are driven by an explicit fuel
counter; with fuel `0` the call answers `none` without touching the plan
(sufficient fuel makes this branch unreachable). -/
def execute_select : Nat → Plan → Option Row × Plan
  | 0, p => (none, p)
  | fuel + 1, p =>
    match p with
    | .Source rows pos =>
      match rows.get? pos with
      | some r => (some r, .Source rows (pos + 1))
      | none => (none, .Source rows 0)
    | .Projection cols inner =>
      match execute_select fuel inner with
      | (some row, inner') => (some (cols.map (project_column row)), .Projection cols inner')
      | (none, inner') => (none, .Projection cols inner')
    | .CartesianProduct inner first_run prev =>
      if inner.isEmpty then
        if first_run then (some [], .CartesianProduct inner false prev)
        else (none, .CartesianProduct inner first_run prev)
      else if first_run then
        match product_prime fuel inner with
        | (children, rows, true) => (some rows.flatten, .CartesianProduct children false rows)
        | (children, rows, false) => (none, .CartesianProduct children false rows)
      else
        match product_advance fuel inner prev with
        | (true, children, prev') => (some prev'.flatten, .CartesianProduct children false prev')
        | (false, children, prev') => (none, .CartesianProduct children false prev')
    | .Selection cs inner =>
      match execute_select fuel inner with
      | (some row, inner') =>
        if cs.all (constraint_holds row) then (some row, .Selection cs inner')
        else execute_select fuel (.Selection cs inner')
      | (none, inner') => (none, .Selection cs inner')
    | .Limit l inner st =>
      if st < l then
        match execute_select fuel inner with
        | (r, inner') => (r, .Limit l inner' (st + 1))
      else (none, .Limit l inner st)

/-- The first-run priming loop of the `CartesianProduct` arm
(`select.rs` lines 757-769): pull one row from each child in order; on
the first child that yields nothing, stop (later children stay
untouched, `previous_row` keeps only the rows pushed so far).  Returns
the updated children, the pushed rows, and whether priming completed. -/
def product_prime : Nat → List Plan → List Plan × List Row × Bool
  | _, [] => ([], [], true)
  | 0, ps => (ps, [], false)
  | fuel + 1, p :: ps =>
    match execute_select fuel p with
    | (some r, p') =>
      match product_prime fuel ps with
      | (ps', rows, ok) => (p' :: ps', r :: rows, ok)
    | (none, p') => (p' :: ps, [], false)

/-- The advancing loop of the `CartesianProduct` arm (`select.rs` lines
770-789): starting from the leftmost child, pull it; if it yields, store
the row at the child's slot of `previous_row` and succeed; if it is
exhausted, reset it — leaving its `previous_row` slot as it was — and
move one child to the right; fail when every child is exhausted. -/
def product_advance : Nat → List Plan → List Row → Bool × List Plan × List Row
  | _, [], prev => (false, [], prev)
  | 0, ps, prev => (false, ps, prev)
  | fuel + 1, p :: ps, prev =>
    match execute_select fuel p with
    | (some r, p') => (true, p' :: ps, r :: prev.drop 1)
    | (none, p') =>
      match product_advance fuel ps (prev.drop 1) with
      | (ok, ps', prevRest) => (ok, p'.reset :: ps', prev.headD [] :: prevRest)

end

/-- The driver loop of `Aidb::select` (`select.rs` lines 231-235): pull
rows until the plan answers `none`, collecting them in order. -/
def run_select : Nat → Plan → List Row
  | 0, _ => []
  | fuel + 1, p =>
    match execute_select fuel p with
    | (some row, p') => row :: run_select fuel p'
    | (none, _) => []

end Exec

/-- Association-list lookup, used to model the `HashMap` caches; the
keyed entries are unique in every state the model builds. -/
def aget {κ α : Type} [BEq κ] (m : List (κ × α)) (k : κ) : Option α :=
  (m.find? (fun p => p.1 == k)).map (·.2)

/-- Decidable equality of `Except` results (not provided by the core
library), used to evaluate the model at concrete inputs. -/
instance {e a : Type} [DecidableEq e] [DecidableEq a] : DecidableEq (Except e a) := fun x y =>
  match x, y with
  | .ok v, .ok w => if h : v = w then .isTrue (by rw [h]) else .isFalse (by simp [h])
  | .error v, .error w => if h : v = w then .isTrue (by rw [h]) else .isFalse (by simp [h])
  | .ok _, .error _ => .isFalse (by simp)
  | .error _, .ok _ => .isFalse (by simp)

/-- `Column` from `schema.rs`. -/
structure Column where
  name : String
  datatype : DataType
deriving DecidableEq

/-- `IndexType` from `schema.rs`. -/
inductive IndexType where
  | BTree
deriving DecidableEq

/-- `IndexInfo` from `schema.rs`. -/
structure IndexInfo where
  column_index : Nat
  type_ : IndexType
  block : Nat
deriving DecidableEq

/-- `Schema` from `schema.rs` (`block_index` is the in-memory-only field
stamped on load). -/
structure Schema where
  block_index : Nat
  next_schema_block : Nat
  name : String
  columns : List Column
  indices : List IndexInfo
  data_block : Nat
deriving DecidableEq

/-- `Schema::row_size` from `schema.rs` lines 50-60. -/
def Schema.row_size (s : Schema) : Nat :=
  1 + (s.columns.map (fun column =>
    match column.datatype with
    | .Integer => 9
    | .Real => 9
    | .Text => 13)).sum

namespace Planner

/-- `SqlCol` from `sql.rs`. -/
inductive SqlCol where
  | Short (column : String)
  | Full (table column : String)
deriving DecidableEq

/-- `SqlOn` from `sql.rs`. -/
structure SqlOn where
  lhs : SqlCol
  rhs : SqlCol
deriving DecidableEq

/-- `SqlSelectTarget` from `sql.rs`. -/
inductive SqlSelectTarget where
  | Column (c : SqlCol)
  | Const (v : Value)
  | Wildcard
  | Variable (v : String)
deriving DecidableEq

/-- `SqlColOrExpr` from `sql.rs`. -/
inductive SqlColOrExpr where
  | Column (c : SqlCol)
  | Const (v : Value)
deriving DecidableEq

/-- `SqlRel` from `sql.rs`. -/
inductive SqlRel where
  | Eq (lhs rhs : SqlColOrExpr)
  | Le (lhs rhs : SqlColOrExpr)
  | Like (lhs : SqlCol) (rhs : String)
deriving DecidableEq

/-- `SqlWhere` from `sql.rs`. -/
inductive SqlWhere where
  | Rel (r : SqlRel)
  | And (lhs rhs : SqlWhere)
  | Or (lhs rhs : SqlWhere)
  | Not (clause : SqlWhere)
deriving DecidableEq

/-- `QueryColumn` from `select.rs`. -/
inductive QueryColumn where
  | Column (table column : String)
  | Const (v : Value)
deriving DecidableEq

/-- `QueryConstraint` from `select.rs`. -/
inductive QueryConstraint where
  | EqColumn (table_lhs column_lhs table_rhs column_rhs : String)
  | EqConst (table column : String) (value : Value)
deriving DecidableEq

/-- `LogicalQueryPlan` from `select.rs`. -/
structure LogicalQueryPlan where
  tables : List String
  columns : List QueryColumn
  constraints : List QueryConstraint
  limit : Option Nat
deriving DecidableEq

/-- The constant-only test of `build_logical_plan` (`select.rs` lines
272-275): a target is constant when it is a literal or a session
variable. -/
def is_const_target : SqlSelectTarget → Bool
  | .Column _ => false
  | .Wildcard => false
  | .Const _ => true
  | .Variable _ => true

/-- Session-variable evaluation (`select.rs` lines 296-299 and 392-395):
`@@version_comment` is the literal text `"aidb"`, every other variable is
`Null`. -/
def variable_value (v : String) : Value :=
  if v = "@@version_comment" then .Text "aidb" else .Null

/-- Header computed for a constant-only target (`select.rs` lines
283-300).  The catch-all arm mirrors the Rust `unreachable!()`: under the
constant-only guard it is never taken. -/
def const_header (name : SqlSelectTarget → String) (t : SqlSelectTarget) : Column :=
  match t with
  | .Const v => ⟨name t, v.datatype.getD .Text⟩
  | .Variable _ => ⟨name t, .Text⟩
  | _ => ⟨name t, .Text⟩

/-- Plan column computed for a constant-only target (`select.rs` lines
283-300); catch-all as in `const_header`. -/
def const_column : SqlSelectTarget → QueryColumn
  | .Const v => .Const v
  | .Variable v => .Const (variable_value v)
  | _ => .Const .Null

/-- The schema-collection loop of `build_logical_plan` (`select.rs`
lines 323-330): walk the referenced tables, reject duplicates, load each
schema.  `lookup` stands for `get_schema` (cache or schema chain); a
missing table is its "table not found" error. -/
def build_schemas (lookup : String → Option Schema) :
    List String → List (String × Schema) → Except String (List (String × Schema))
  | [], acc => .ok acc
  | t :: ts, acc =>
    if acc.any (fun p => p.1 == t) then .error "duplicate table"
    else
      match lookup t with
      | some s => build_schemas lookup ts (acc ++ [(t, s)])
      | none => .error "table not found"

/-- `reify_column` from `select.rs` lines 332-362. -/
def reify_column (schemas : List (String × Schema)) :
    SqlCol → Except String (String × String × DataType)
  | .Full table column =>
    match aget schemas table with
    | none => .error "table not specified"
    | some schema =>
      match schema.columns.find? (fun c => column == c.name) with
      | none => .error "column not found"
      | some c => .ok (table, column, c.datatype)
  | .Short column =>
    match schemas.foldr (fun (p : String × Schema) acc =>
        ((p.2.columns.filter (fun c => column == c.name)).map (fun c => (p.1, c))) ++ acc) [] with
    | [] => .error "column not found"
    | [(t, c)] => .ok (t, column, c.datatype)
    | _ => .error "ambiguous column"

/-- `reify_where` from `select.rs` lines 414-475.  The `todo!()` arms
(`Le`, `Like`, `Or`, `Not`) panic in Rust and are modelled as errors. -/
def reify_where (reify : SqlCol → Except String (String × String × DataType)) :
    SqlWhere → Except String (List QueryConstraint)
  | .Rel (.Eq (.Column lhs) (.Column rhs)) => do
    let (table_lhs, column_lhs, datatype_lhs) ← reify lhs
    let (table_rhs, column_rhs, datatype_rhs) ← reify rhs
    if datatype_lhs ≠ datatype_rhs then .error "datatype mismatch"
    else .ok [.EqColumn table_lhs column_lhs table_rhs column_rhs]
  | .Rel (.Eq (.Const value) (.Column column)) => do
    let (table, column', datatype) ← reify column
    match value.datatype with
    | some vd => if datatype ≠ vd then .error "datatype mismatch"
                 else .ok [.EqConst table column' value]
    | none => .ok [.EqConst table column' value]
  | .Rel (.Eq (.Column column) (.Const value)) => do
    let (table, column', datatype) ← reify column
    match value.datatype with
    | some vd => if datatype ≠ vd then .error "datatype mismatch"
                 else .ok [.EqConst table column' value]
    | none => .ok [.EqConst table column' value]
  | .Rel (.Eq (.Const lhs) (.Const rhs)) =>
    if lhs = rhs then .ok [] else .error "where clause is always false"
  | .Rel (.Le _ _) => .error "not implemented"
  | .Rel (.Like _ _) => .error "not implemented"
  | .And lhs rhs => do
    let a ← reify_where reify lhs
    let b ← reify_where reify rhs
    .ok (a ++ b)
  | .Or _ _ => .error "not implemented"
  | .Not _ => .error "not implemented"

/-- `build_logical_plan` from `select.rs` lines 263-491.  `name` stands
for the `Display` rendering of a select target (used only for response
headers; its impl is not under `src/`), `lookup` for `get_schema`. -/
def build_logical_plan (name : SqlSelectTarget → String) (lookup : String → Option Schema)
    (columns : List SqlSelectTarget) (table : Option String)
    (join_on : List (String × SqlOn)) (where_ : Option SqlWhere) (limit : Option Nat) :
    Except String (List Column × LogicalQueryPlan) :=
  if columns.all is_const_target then
    if !join_on.isEmpty || where_.isSome then .error "table required"
    else .ok (columns.map (const_header name),
              ⟨[], columns.map const_column, [], limit⟩)
  else
    match table with
    | none => .error "table required"
    | some from_table => do
      let tables := from_table :: join_on.map (·.1)
      let schemas ← build_schemas lookup tables []
      let (headers, query_columns) ← columns.foldlM
        (fun (acc : List Column × List QueryColumn) col => do
          match col with
          | .Column c => do
            let (t, c', dt) ← reify_column schemas c
            .ok (acc.1 ++ [⟨name col, dt⟩], acc.2 ++ [.Column t c'])
          | .Wildcard =>
            match aget schemas from_table with
            | some schema =>
              .ok (acc.1 ++ schema.columns,
                   acc.2 ++ schema.columns.map (fun c => .Column from_table c.name))
            | none => .error "internal: from table missing"
          | .Const v => .ok (acc.1 ++ [⟨name col, v.datatype.getD .Text⟩], acc.2 ++ [.Const v])
          | .Variable v => .ok (acc.1 ++ [⟨name col, .Text⟩],
                                acc.2 ++ [.Const (variable_value v)]))
        ([], [])
      let join_constraints ← join_on.foldlM
        (fun (acc : List QueryConstraint) jo => do
          let (table_lhs, column_lhs, datatype_lhs) ← reify_column schemas jo.2.lhs
          let (table_rhs, column_rhs, datatype_rhs) ← reify_column schemas jo.2.rhs
          if datatype_lhs ≠ datatype_rhs then .error "datatype mismatch"
          else .ok (acc ++ [.EqColumn table_lhs column_lhs table_rhs column_rhs]))
        []
      let where_constraints ← match where_ with
        | some w => reify_where (reify_column schemas) w
        | none => .ok []
      .ok (headers, ⟨tables, query_columns, join_constraints ++ where_constraints, limit⟩)

/-- Stateless shape of `PhysicalPlan` from `select.rs` (each node's
resumable state starts at its `Default`). -/
inductive PhysPlan where
  | Scan (row_size : Nat) (first_block : Nat)
  | BTreeExact (root : Nat) (key : Int)
  | Projection (columns : List Exec.ProjectionColumn) (inner : PhysPlan)
  | CartesianProduct (inner : List PhysPlan)
  | Selection (constraints : List Exec.SelectionConstraint) (inner : PhysPlan)
  | Limit (limit : Nat) (inner : PhysPlan)

/-- Per-table resolved column metadata built at the top of
`build_physical_plan` (`select.rs` lines 494-513): for each column of
each referenced table, its table, name, and attached index (if any). -/
def table_columns (t : String) (schema : Schema) :
    List (String × String × Option (IndexType × Nat)) :=
  schema.columns.enum.map (fun (p : Nat × Column) =>
    (t, p.2.name,
      (schema.indices.find? (fun ii => ii.column_index == p.1)).map
        (fun ii => (ii.type_, ii.block))))

/-- `find_column_index` from `select.rs` lines 514-519 (the Rust
`unwrap` on an unresolvable column is an internal error). -/
def find_column_index (columns : List (String × String × Option (IndexType × Nat)))
    (t c : String) : Except String Nat :=
  match columns.findIdx? (fun x => x.1 == t && x.2.1 == c) with
  | some i => .ok i
  | none => .error "internal: unresolved column"

/-- `find_column_index_info` from `select.rs` lines 520-529. -/
def find_column_index_info (columns : List (String × String × Option (IndexType × Nat)))
    (t c : String) : Except String (Option (IndexType × Nat)) :=
  match columns.find? (fun x => x.1 == t && x.2.1 == c) with
  | some x => .ok x.2.2
  | none => .error "internal: unresolved column"

/-- The per-table constraint consumption loop of `build_physical_plan`
(`select.rs` lines 531-572): an `EqConst` constraint on an indexed
column becomes a `BTreeExact` probe (integer keys only; `Null` and other
types are errors) and is consumed; other constraints stay; a table with
no consumed index constraint becomes a `Scan`. -/
def plan_tables (columns : List (String × String × Option (IndexType × Nat)))
    (row_sizes first_blocks : List (String × Nat)) :
    List String → List QueryConstraint → Except String (List PhysPlan × List QueryConstraint)
  | [], constraints => .ok ([], constraints)
  | t :: rest, constraints => do
    let (plans_here, indexed, remaining) ← constraints.foldlM
      (fun (acc : List PhysPlan × Bool × List QueryConstraint) c => do
        match c with
        | .EqConst ct cc v => do
          let info ← find_column_index_info columns ct cc
          match info with
          | some (.BTree, block) =>
            match v with
            | .Integer key => .ok (acc.1 ++ [.BTreeExact block key], true, acc.2.2)
            | .Null => .error "indexed column must not be NULL"
            | _ => .error "datatype mismatch"
          | none => .ok (acc.1, acc.2.1, acc.2.2 ++ [c])
        | _ => .ok (acc.1, acc.2.1, acc.2.2 ++ [c]))
      ([], false, [])
    let scan_plan : List PhysPlan ←
      if indexed then .ok []
      else do
        match aget row_sizes t, aget first_blocks t with
        | some rs, some fb => .ok [.Scan rs fb]
        | _, _ => .error "internal: unresolved table"
    let (plans_rest, constraints_rest) ← plan_tables columns row_sizes first_blocks rest remaining
    .ok (plans_here ++ scan_plan ++ plans_rest, constraints_rest)

/-- `build_physical_plan` from `select.rs` lines 493-637. -/
def build_physical_plan (lookup : String → Option Schema) (logical : LogicalQueryPlan) :
    Except String PhysPlan := do
  let (columns, row_sizes, first_blocks) ← logical.tables.foldlM
    (fun (acc : List (String × String × Option (IndexType × Nat)) ×
                List (String × Nat) × List (String × Nat)) t => do
      match lookup t with
      | none => .error "table not found"
      | some schema =>
        .ok (acc.1 ++ table_columns t schema,
             acc.2.1 ++ [(t, schema.row_size)],
             acc.2.2 ++ [(t, schema.data_block)]))
    ([], [], [])
  let (plans, residual) ← plan_tables columns row_sizes first_blocks logical.tables logical.constraints
  let plan := match plans with
    | [p] => p
    | ps => PhysPlan.CartesianProduct ps
  let selection_constraints ← residual.mapM (fun c => do
    match c with
    | .EqColumn tl cl tr cr => do
      let i ← find_column_index columns tl cl
      let j ← find_column_index columns tr cr
      .ok (Exec.SelectionConstraint.EqColumn i j)
    | .EqConst t c' v => do
      let i ← find_column_index columns t c'
      .ok (Exec.SelectionConstraint.EqConst i v))
  let plan := if residual.isEmpty then plan else .Selection selection_constraints plan
  let projection_columns ← logical.columns.mapM (fun qc => do
    match qc with
    | .Column t c => do
      let i ← find_column_index columns t c
      .ok (Exec.ProjectionColumn.Column i)
    | .Const v => .ok (Exec.ProjectionColumn.Const v))
  let plan := PhysPlan.Projection projection_columns plan
  let plan := match logical.limit with
    | some l => PhysPlan.Limit l plan
    | none => plan
  .ok plan

mutual

/-- Instantiation of a physical plan with its initial (`Default`)
states, ready for `execute_select`.  The two store-reading leaves take
their row sequences from the oracles `scan_rows` (the valid rows of the
data chain rooted at `first_block`) and `btree_rows` (the at-most-one
row the B+tree probe finds). -/
def PhysPlan.init (scan_rows : Nat → Nat → List Row) (btree_rows : Nat → Int → List Row) :
    PhysPlan → Exec.Plan
  | .Scan row_size first_block => .Source (scan_rows row_size first_block) 0
  | .BTreeExact root key => .Source (btree_rows root key) 0
  | .Projection cols inner => .Projection cols (inner.init scan_rows btree_rows)
  | .CartesianProduct inner => .CartesianProduct (PhysPlan.init_list scan_rows btree_rows inner) true []
  | .Selection cs inner => .Selection cs (inner.init scan_rows btree_rows)
  | .Limit l inner => .Limit l (inner.init scan_rows btree_rows) 0

/-- Instantiation of the children of a `CartesianProduct`. -/
def PhysPlan.init_list (scan_rows : Nat → Nat → List Row) (btree_rows : Nat → Int → List Row) :
    List PhysPlan → List Exec.Plan
  | [] => []
  | p :: ps => p.init scan_rows btree_rows :: PhysPlan.init_list scan_rows btree_rows ps

end

/-- `Aidb::select` (`select.rs` lines 217-238): build the logical plan,
build the physical plan, and drive the executor to completion, returning
the response headers and the materialized rows. -/
def select_rows (name : SqlSelectTarget → String) (lookup : String → Option Schema)
    (scan_rows : Nat → Nat → List Row) (btree_rows : Nat → Int → List Row) (fuel : Nat)
    (columns : List SqlSelectTarget) (table : Option String)
    (join_on : List (String × SqlOn)) (where_ : Option SqlWhere) (limit : Option Nat) :
    Except String (List Column × List Row) := do
  let (headers, logical) ← build_logical_plan name lookup columns table join_on where_ limit
  let plan ← build_physical_plan lookup logical
  .ok (headers, Exec.run_select fuel (plan.init scan_rows btree_rows))

end Planner

/-- Association-list update (insert or replace). -/
def aset {κ α : Type} [BEq κ] : List (κ × α) → κ → α → List (κ × α)
  | [], k, v => [(k, v)]
  | (k', v') :: t, k, v => if k' == k then (k, v) :: t else (k', v') :: aset t k v

/-- Association-list removal. -/
def aerase {κ α : Type} [BEq κ] (m : List (κ × α)) (k : κ) : List (κ × α) :=
  m.filter (fun p => !(p.1 == k))

/-- Set-style insertion into a list modelling a `HashSet`. -/
def sinsert {κ : Type} [BEq κ] (s : List κ) (k : κ) : List κ :=
  if s.contains k then s else s ++ [k]

/-- `SuperBlock` from `superblock.rs`. -/
structure SuperBlock where
  next_empty_block : Nat
  first_schema_block : Nat
  first_journal_block : Nat
  next_text_block : Nat
  next_text_offset : Nat
deriving DecidableEq

/-- `SuperBlock::default` from `superblock.rs` lines 18-28. -/
def SuperBlock.default : SuperBlock := ⟨1, 0, 0, 0, 0⟩

namespace Drv

/-- Decoded content of one block in the driver model.  On the blob
store a block is a fixed-size byte buffer; the binrw codecs round-trip,
so the statement-driver claims are stated over the decoded block
contents: a serialized superblock, a serialized schema, or
uninterpreted data bytes. -/
inductive DBlock where
  | sup (sb : SuperBlock)
  | schem (s : Schema)
  | dat (bytes : List Nat)
deriving DecidableEq

/-- The fields of `Aidb` from `lib.rs` lines 31-43 that the statement
driver manipulates: the blob store behind the `Operator`, the block
cache and its dirty set, the in-memory superblock and its dirty flag,
the schema cache and its dirty set, the transaction flag, and the
superblock snapshot (the I/O log is not modelled). -/
structure DrvState where
  store : List (Nat × DBlock)
  blocks : List (Nat × DBlock)
  blocks_dirty : List Nat
  superblock : SuperBlock
  superblock_dirty : Bool
  schemas : List (String × Schema)
  schemas_dirty : List String
  transaction_in_progress : Bool
  superblock_backup : Option SuperBlock
deriving DecidableEq

/-- `Aidb::new_block` from `storage.rs` lines 36-41: allocate the next
free index by post-incrementing the superblock counter and mark the
superblock dirty.  The zeroed buffer is returned to the caller (who
later `put_block`s it). -/
def new_block (st : DrvState) : Nat × DrvState :=
  (st.superblock.next_empty_block,
   { st with
       superblock := { st.superblock with
                         next_empty_block := st.superblock.next_empty_block + 1 },
       superblock_dirty := true })

/-- `Aidb::get_block` from `storage.rs` lines 43-48: hand out the cached
buffer (removing it from the cache), else read it from the store;
`NotFound` when the store has no such key. -/
def get_block (st : DrvState) (i : Nat) : DrvState × Except String DBlock :=
  match aget st.blocks i with
  | some b => ({ st with blocks := aerase st.blocks i }, .ok b)
  | none =>
    match aget st.store i with
    | some b => (st, .ok b)
    | none => (st, .error "NotFound")

/-- `Aidb::put_block` from `storage.rs` lines 50-52. -/
def put_block (st : DrvState) (i : Nat) (b : DBlock) : DrvState :=
  { st with blocks := aset st.blocks i b }

/-- `Aidb::mark_block_dirty` from `storage.rs` lines 54-56. -/
def mark_block_dirty (st : DrvState) (i : Nat) : DrvState :=
  { st with blocks_dirty := sinsert st.blocks_dirty i }

/-- `Aidb::put_schema` from `schema.rs` lines 240-242. -/
def put_schema (st : DrvState) (table : String) (s : Schema) : DrvState :=
  { st with schemas := aset st.schemas table s }

/-- `Aidb::mark_schema_dirty` from `schema.rs` lines 244-246. -/
def mark_schema_dirty (st : DrvState) (table : String) : DrvState :=
  { st with schemas_dirty := sinsert st.schemas_dirty table }

/-- Fuel bound for the schema-chain walk: more blocks than the model
holds anywhere cannot be visited by an acyclic chain. -/
def chain_fuel (st : DrvState) : Nat :=
  st.store.length + st.blocks.length + 2

/-- The chain walk of `Aidb::load_schema` from `schema.rs` lines
256-271: follow `next_schema_block` from the superblock's head, caching
every traversed schema under its name, stamping `block_index`, until the
name matches (`0` terminates with "table not found").  `fuel` only bounds
the walk; it exceeds the length of every acyclic chain. -/
def load_schema_walk (table : String) : Nat → DrvState → Nat → DrvState × Except String Schema
  | 0, st, _ => (st, .error "schema chain too long")
  | fuel + 1, st, idx =>
    if idx == 0 then (st, .error "table not found")
    else
      match get_block st idx with
      | (st1, .error e) => (st1, .error e)
      | (st1, .ok b) =>
        match b with
        | .schem s0 =>
          let s := { s0 with block_index := idx }
          let st2 := put_block st1 idx b
          if s.name == table then (st2, .ok s)
          else load_schema_walk table fuel (put_schema st2 s.name s) s.next_schema_block
        | _ => (st1, .error "invalid schema block")

/-- `Aidb::get_schema` from `schema.rs` lines 233-238: hand out the
cached schema (removing it from the cache), else walk the chain. -/
def get_schema (st : DrvState) (table : String) : DrvState × Except String Schema :=
  match aget st.schemas table with
  | some s => ({ st with schemas := aerase st.schemas table }, .ok s)
  | none => load_schema_walk table (chain_fuel st) st st.superblock.first_schema_block

/-- `Aidb::save_schema` from `schema.rs` lines 248-254: fetch the block
recorded in the schema's `block_index`, overwrite it with the serialized
schema, put it back and mark it dirty. -/
def save_schema (st : DrvState) (s : Schema) : DrvState × Except String Unit :=
  match get_block st s.block_index with
  | (st1, .error e) => (st1, .error e)
  | (st1, .ok _) =>
    (mark_block_dirty (put_block st1 s.block_index (.schem s)) s.block_index, .ok ())

/-- The dirty-schema flush loop of `Aidb::submit` (`storage.rs` lines
67-73); the Rust `unwrap` on `get_schema` is modelled as the error. -/
def submit_schemas : DrvState → List String → DrvState × Except String Unit
  | st, [] => (st, .ok ())
  | st, t :: rest =>
    match get_schema st t with
    | (st1, .error e) => (st1, .error e)
    | (st1, .ok s) =>
      match save_schema st1 s with
      | (st2, .error e) => (st2, .error e)
      | (st2, .ok ()) => submit_schemas (put_schema st2 t s) rest

/-- The dirty-block flush loop of `Aidb::submit` (`storage.rs` lines
75-81): write each dirty block through to the store. -/
def submit_blocks : DrvState → List Nat → DrvState × Except String Unit
  | st, [] => (st, .ok ())
  | st, i :: rest =>
    match get_block st i with
    | (st1, .error e) => (st1, .error e)
    | (st1, .ok b) =>
      submit_blocks (put_block { st1 with store := aset st1.store i b } i b) rest

/-- `Aidb::submit` from `storage.rs` lines 58-84: serialize the
superblock into block 0 if dirty, then flush dirty schemas into their
blocks, then write every dirty block to the store; the dirty sets are
swapped out before each loop. -/
def submit (st : DrvState) : DrvState × Except String Unit :=
  let st1 :=
    if st.superblock_dirty then
      { mark_block_dirty (put_block st 0 (.sup st.superblock)) 0 with superblock_dirty := false }
    else st
  let sd := st1.schemas_dirty
  match submit_schemas { st1 with schemas_dirty := [] } sd with
  | (st2, .error e) => (st2, .error e)
  | (st2, .ok ()) =>
    let bd := st2.blocks_dirty
    submit_blocks { st2 with blocks_dirty := [] } bd

/-- One call a data statement makes against the cache layer.  The
operations are exactly the public surface the data statements
(`create_table`, `insert_into`, `select`, ...) use: block allocation,
the block loan (`get_block`/`put_block`), dirty marking, direct
superblock-field updates, the schema loan, and raising an error. -/
inductive CacheOp where
  | new_block
  | get_block (i : Nat)
  | put_block (i : Nat) (b : DBlock)
  | mark_block_dirty (i : Nat)
  | mark_superblock_dirty
  | set_superblock (sb : SuperBlock)
  | get_schema (table : String)
  | put_schema (table : String) (s : Schema)
  | mark_schema_dirty (table : String)
  | fail (e : String)
deriving DecidableEq

/-- Effect of one `CacheOp`.  A buffer or schema handed out by a `get`
is held by the statement (and dropped when not `put` back), exactly as
the exclusive loan works in the source. -/
def apply_op (st : DrvState) : CacheOp → DrvState × Except String Unit
  | .new_block => ((new_block st).2, .ok ())
  | .get_block i =>
    match get_block st i with
    | (st1, .ok _) => (st1, .ok ())
    | (st1, .error e) => (st1, .error e)
  | .put_block i b => (put_block st i b, .ok ())
  | .mark_block_dirty i => (mark_block_dirty st i, .ok ())
  | .mark_superblock_dirty => ({ st with superblock_dirty := true }, .ok ())
  | .set_superblock sb => ({ st with superblock := sb }, .ok ())
  | .get_schema table =>
    match get_schema st table with
    | (st1, .ok _) => (st1, .ok ())
    | (st1, .error e) => (st1, .error e)
  | .put_schema table s => (put_schema st table s, .ok ())
  | .mark_schema_dirty table => (mark_schema_dirty st table, .ok ())
  | .fail e => (st, .error e)

/-- Run a statement body: apply its cache calls in order, stopping at
the first error (the Rust `?` operator), keeping the state mutated so
far. -/
def run_ops : DrvState → List CacheOp → DrvState × Except String Unit
  | st, [] => (st, .ok ())
  | st, op :: rest =>
    match apply_op st op with
    | (st1, .ok ()) => run_ops st1 rest
    | (st1, .error e) => (st1, .error e)

/-- `Response` from `query.rs`. -/
inductive Response where
  | Rows (columns : List Column) (rows : List Row)
  | Meta (affected_rows : Nat)
deriving DecidableEq

/-- A statement as the dispatcher sees it.  The four control statements
are explicit; `mutate ops` stands for any of the data statements
(`SHOW TABLES`, `CREATE TABLE`, `INSERT INTO`, `SELECT`, ...), whose
entire interaction with the engine state goes through the cache API
listed in `CacheOp`. -/
inductive Stmt where
  | flush_tables
  | start_transaction
  | commit
  | rollback
  | mutate (ops : List CacheOp)
deriving DecidableEq

/-- `Aidb::dispatch` from `query.rs` lines 20-82 (the four control
arms are verbatim; the data arms route to their components, modelled by
`run_ops`).  The Rust `self.superblock_backup.take().unwrap()` in the
`Rollback` arm panics without a snapshot; that is the internal error
arm here. -/
def dispatch (st : DrvState) : Stmt → DrvState × Except String Response
  | .mutate ops =>
    match run_ops st ops with
    | (st1, .ok ()) => (st1, .ok (.Meta 0))
    | (st1, .error e) => (st1, .error e)
  | .flush_tables =>
    if st.transaction_in_progress then (st, .ok (.Meta 0))
    else ({ st with schemas := [], blocks := [] }, .ok (.Meta 0))
  | .start_transaction =>
    if st.transaction_in_progress then (st, .ok (.Meta 0))
    else ({ st with transaction_in_progress := true }, .ok (.Meta 0))
  | .commit =>
    if !st.transaction_in_progress then (st, .ok (.Meta 0))
    else ({ st with transaction_in_progress := false }, .ok (.Meta 0))
  | .rollback =>
    if !st.transaction_in_progress then (st, .ok (.Meta 0))
    else
      match st.superblock_backup with
      | some bk =>
        ({ st with
             schemas := [], schemas_dirty := [],
             blocks := [], blocks_dirty := [],
             superblock := bk, superblock_dirty := false,
             superblock_backup := none,
             transaction_in_progress := false }, .ok (.Meta 0))
      | none => (st, .error "internal: missing superblock backup")

/-- `Aidb::query` from `lib.rs` lines 87-99: snapshot the superblock,
dispatch; on success submit unless a transaction is in progress; on
failure force the transaction flag on and dispatch `ROLLBACK`,
returning the original error. -/
def query (st0 : DrvState) (stmt : Stmt) : DrvState × Except String Response :=
  let st := { st0 with superblock_backup := some st0.superblock }
  match dispatch st stmt with
  | (st1, .ok r) =>
    if st1.transaction_in_progress then (st1, .ok r)
    else
      match submit st1 with
      | (st2, .ok ()) => (st2, .ok r)
      | (st2, .error e) => (st2, .error e)
  | (st1, .error e) =>
    let st2 := { st1 with transaction_in_progress := true }
    ((dispatch st2 .rollback).1, .error e)

/-- Drive a statement sequence through `query`, stopping at the first
statement whose `query` answers an error; the flag tells whether every
statement succeeded. -/
def run_queries : DrvState → List Stmt → DrvState × Bool
  | st, [] => (st, true)
  | st, s :: rest =>
    match query st s with
    | (st1, .ok _) => run_queries st1 rest
    | (st1, .error _) => (st1, false)

end Drv

/-- `BLOCK_SIZE` from `storage.rs`. -/
def BLOCK_SIZE : Nat := 8 * 1024

/-- Modelled from the spec: `DataPointer` (referenced from `storage.rs`
but its declaration is missing from the `src/` snapshot; spec section 3
and glossary): a `(block: BlockIndex, offset: u16)` pair identifying a
row slot within a data block or a text payload within a text-spill
block. -/
structure DataPointer where
  block : Nat
  offset : Nat
deriving DecidableEq

namespace Txt

/-- The slice of the `Aidb` state that `insert_text` interacts with:
the superblock (allocation counter and text-append cursor), its dirty
flag, the blob store, the block cache and the block dirty set.  Blocks
are byte buffers here. -/
structure TxtState where
  superblock : SuperBlock
  superblock_dirty : Bool
  store : List (Nat × List Nat)
  blocks : List (Nat × List Nat)
  blocks_dirty : List Nat
deriving DecidableEq

/-- `read_physical`'s length normalisation (`storage.rs` lines 93-98):
a short blob is zero-padded to the block size, a long one truncated. -/
def resize_block (b : List Nat) : List Nat :=
  b.take BLOCK_SIZE ++ List.replicate (BLOCK_SIZE - b.length) 0

/-- `Aidb::new_block` (`storage.rs` lines 36-41) over the text state:
post-increment the allocation counter, mark the superblock dirty, hand
back a zeroed buffer. -/
def new_block (st : TxtState) : Nat × List Nat × TxtState :=
  (st.superblock.next_empty_block, List.replicate BLOCK_SIZE 0,
   { st with
       superblock := { st.superblock with
                         next_empty_block := st.superblock.next_empty_block + 1 },
       superblock_dirty := true })

/-- `Aidb::get_block` (`storage.rs` lines 43-48) over the text state. -/
def get_block (st : TxtState) (i : Nat) : TxtState × Except String (List Nat) :=
  match aget st.blocks i with
  | some b => ({ st with blocks := aerase st.blocks i }, .ok b)
  | none =>
    match aget st.store i with
    | some b => (st, .ok (resize_block b))
    | none => (st, .error "NotFound")

/-- `Aidb::put_block` over the text state. -/
def put_block (st : TxtState) (i : Nat) (b : List Nat) : TxtState :=
  { st with blocks := aset st.blocks i b }

/-- `Aidb::mark_block_dirty` over the text state. -/
def mark_block_dirty (st : TxtState) (i : Nat) : TxtState :=
  { st with blocks_dirty := sinsert st.blocks_dirty i }

/-- `cursor.write_all` on a block buffer positioned at `offset`
(`data.rs` line 287): writing past the end of the fixed buffer fails;
otherwise the payload bytes overwrite the buffer in place. -/
def write_all (block : List Nat) (offset : Nat) (s : List Nat) :
    Except String (List Nat) :=
  if block.length < offset + s.length then .error "failed to write whole buffer"
  else .ok (block.take offset ++ s ++ block.drop (offset + s.length))

/-- The target-block selection of `insert_text` (`data.rs` lines
275-285): allocate a fresh block (cursor 0) when the current text block
is 0 or its remaining space is smaller than the payload, else fetch the
current text block (cursor `next_text_offset`). -/
def text_target (st : TxtState) (s_len : Nat) :
    TxtState × Except String (Nat × List Nat × Nat) :=
  if st.superblock.next_text_block == 0
      || decide (BLOCK_SIZE - st.superblock.next_text_offset < s_len) then
    let (i, b, st') := new_block st
    (st', .ok (i, b, 0))
  else
    match get_block st st.superblock.next_text_block with
    | (st', .ok b) =>
      (st', .ok (st.superblock.next_text_block, b, st.superblock.next_text_offset))
    | (st', .error e) => (st', .error e)

/-- `insert_text` from `data.rs` lines 265-298.  The string is carried
as its UTF-8 byte sequence, whose length is Rust's `s.len()`.  The
`usize` subtraction `BLOCK_SIZE - next_text_offset` would panic on
underflow; every writer keeps `next_text_offset ≤ BLOCK_SIZE`, and the
theorems carry that invariant as a hypothesis. -/
def insert_text (st : TxtState) (s : List Nat) : TxtState × Except String DataPointer :=
  if s.isEmpty then (st, .ok ⟨0, 0⟩)
  else if BLOCK_SIZE < s.length then (st, .error "text too long")
  else
    match text_target st s.length with
    | (st', .error e) => (st', .error e)
    | (st', .ok (index, block, offset)) =>
      match write_all block offset s with
      | .error e => (st', .error e)
      | .ok block' =>
        let next_offset := offset + s.length
        let st1 := mark_block_dirty (put_block st' index block') index
        ({ st1 with
             superblock := { st1.superblock with
                               next_text_block := index,
                               next_text_offset := next_offset },
             superblock_dirty := true },
         .ok ⟨index, offset⟩)

end Txt

namespace Bt

/-- `BTREE_N` from `btree.rs` line 11. -/
def BTREE_N : Nat := ((BLOCK_SIZE - 10) / 20) - 1

/-- `i64::MIN`. -/
def I64_MIN : Int := -(2 ^ 63)

/-- `i64::MAX`. -/
def I64_MAX : Int := 2 ^ 63 - 1

/-- Decoded content of one B+tree block.  On disk a root and an
internal node share one layout (`BTreeRoot` and `BTreeNode` are
field-for-field identical: `len:u16` then `(BlockIndex, i64)` pairs),
so both decode to `node`; a leaf is `next:u64`, `len:u16`, then
`(i64, DataPointer)` records.  The binrw codecs round-trip, so the
B+tree claims are stated over the decoded contents. -/
inductive BtBlock where
  | node (children : List (Nat × Int))
  | leaf (next : Nat) (records : List (Int × DataPointer))
deriving DecidableEq

/-- The slice of the `Aidb` state the B+tree code touches.  Every read
and write goes through the exclusive `get_block`/`put_block` loan, whose
round trip leaves the block mapping unchanged, so cache and store are
folded into the one mapping `map`; dirty-set bookkeeping belongs to the
driver model.  `next_empty_block` is the superblock's allocation
counter. -/
structure BtState where
  map : List (Nat × BtBlock)
  next_empty_block : Nat
deriving DecidableEq

/-- `Aidb::new_block` over the B+tree state. -/
def bt_new_block (st : BtState) : Nat × BtState :=
  (st.next_empty_block, { st with next_empty_block := st.next_empty_block + 1 })

/-- `read_root`/`read_node` from `btree.rs` (lines 123-128, 177-182):
fetch the block and decode it as a root/internal node. -/
def read_node (st : BtState) (i : Nat) : Except String (List (Nat × Int)) :=
  match aget st.map i with
  | some (.node c) => .ok c
  | some (.leaf _ _) => .error "invalid block content"
  | none => .error "NotFound"

/-- `read_leaf` from `btree.rs` lines 247-252. -/
def read_leaf (st : BtState) (i : Nat) : Except String (Nat × List (Int × DataPointer)) :=
  match aget st.map i with
  | some (.leaf next records) => .ok (next, records)
  | some (.node _) => .error "invalid block content"
  | none => .error "NotFound"

/-- `write_root`/`write_node` from `btree.rs` (lines 130-136, 184-190):
fetch the block, serialize the node into it (the binrw
`#[bw(assert(...))]` requires a nonempty child list of at most
`BTREE_N + 1` entries), put it back and mark it dirty.  On the
(theorem-unreachable) failure paths the Rust buffer is dropped from the
cache; the folded mapping keeps it. -/
def write_node (st : BtState) (i : Nat) (children : List (Nat × Int)) :
    Except String BtState :=
  match aget st.map i with
  | none => .error "NotFound"
  | some _ =>
    if children.isEmpty || decide (BTREE_N + 1 < children.length) then
      .error "btree write assert failed"
    else .ok { st with map := aset st.map i (.node children) }

/-- `write_leaf` from `btree.rs` lines 254-260, with the analogous
binrw write assert on the records. -/
def write_leaf (st : BtState) (i : Nat) (next : Nat)
    (records : List (Int × DataPointer)) : Except String BtState :=
  match aget st.map i with
  | none => .error "NotFound"
  | some _ =>
    if records.isEmpty || decide (BTREE_N + 1 < records.length) then
      .error "btree write assert failed"
    else .ok { st with map := aset st.map i (.leaf next records) }

/-- `new_btree` from `btree.rs` lines 78-105: allocate and seed one
leaf, one internal node and one root, each with a single entry (the
write asserts cannot fail on singletons), returning the root index. -/
def new_btree (st : BtState) (key : Int) (record : DataPointer) : Nat × BtState :=
  let (leaf_i, st1) := bt_new_block st
  let st2 := { st1 with map := aset st1.map leaf_i (.leaf 0 [(key, record)]) }
  let (node_i, st3) := bt_new_block st2
  let st4 := { st3 with map := aset st3.map node_i (.node [(leaf_i, 0)]) }
  let (root_i, st5) := bt_new_block st4
  (root_i, { st5 with map := aset st5.map root_i (.node [(node_i, 0)]) })

/-- The child-selection scan shared by `seek_node` and `seek_leaf`
(`btree.rs` lines 163-173 and 233-243): the last child, unless an
earlier separator exceeds the key; `none` on an empty child list (the
Rust `ok_or_eyre("invalid btree index")`). -/
def route_child (children : List (Nat × Int)) (key : Int) : Option Nat :=
  match children.dropLast.find? (fun c => decide (key < c.2)) with
  | some c => some c.1
  | none => children.getLast?.map (·.1)

/-- `seek_node` from `btree.rs` lines 161-175. -/
def seek_node (st : BtState) (root : Nat) (key : Int) : Except String Nat := do
  let c ← read_node st root
  match route_child c key with
  | some i => .ok i
  | none => .error "invalid btree index"

/-- `seek_leaf` from `btree.rs` lines 230-245. -/
def seek_leaf (st : BtState) (root : Nat) (key : Int) : Except String Nat := do
  let node_i ← seek_node st root key
  let c ← read_node st node_i
  match route_child c key with
  | some i => .ok i
  | none => .error "invalid btree index"

/-- `BTreeExactState` from `btree.rs`. -/
inductive BTreeExactState where
  | Initialized
  | Done
deriving DecidableEq

/-- `select_btree` from `btree.rs` lines 291-314: root `0` yields
nothing; otherwise descend to the leaf routing the key and linearly
search it for key equality. -/
def select_btree (st : BtState) (root : Nat) (key : Int) (state : BTreeExactState) :
    Except String (Option DataPointer × BTreeExactState) :=
  if root == 0 then .ok (none, state)
  else
    match state with
    | .Done => .ok (none, .Done)
    | .Initialized => do
      let leaf_i ← seek_leaf st root key
      let (_, records) ← read_leaf st leaf_i
      .ok ((records.find? (fun r => decide (key = r.1))).map (·.2), .Done)

/-- The separator-insertion step shared by `insert_root` and
`insert_node` (`btree.rs` lines 145-156 and 200-211): find the child
slot currently routing `key`, give that slot the separator `key`
(the Rust `swap`), and insert the new child right after it carrying the
slot's previous separator. -/
def insert_child_at (children : List (Nat × Int)) (key : Int) (child : Nat) :
    List (Nat × Int) :=
  let index :=
    match children.dropLast.findIdx? (fun c => decide (key < c.2)) with
    | some i => i
    | none => children.length - 1
  let old := (children.getD index (0, 0)).2
  let updated := children.set index ((children.getD index (0, 0)).1, key)
  updated.insertIdx (index + 1) (child, old)

/-- `insert_root` from `btree.rs` lines 138-159 (an empty child list
underflows `children.len() - 1` and panics in Rust). -/
def insert_root (st : BtState) (root : Nat) (key : Int) (child : Nat) :
    Except String BtState := do
  let c ← read_node st root
  if c.isEmpty then .error "panic: underflow"
  else write_node st root (insert_child_at c key child)

/-- `insert_node` from `btree.rs` lines 192-228: insert the separator
into the node routing `key`; on overflow split the node at
`⌈len/2⌉`, seed the right half into a fresh block, push the right
half's first separator into the root, and finally write back the kept
half. -/
def insert_node (st : BtState) (root : Nat) (key : Int) (child : Nat) :
    Except String BtState := do
  let node_i ← seek_node st root key
  let c ← read_node st node_i
  if c.isEmpty then .error "panic: underflow"
  else
    let c' := insert_child_at c key child
    if BTREE_N + 1 < c'.length then
      let (next_node_i, st1) := bt_new_block st
      let half := (c'.length + 1) / 2
      let kept := c'.take half
      let next_children := c'.drop half
      match next_children.head? with
      | none => .error "panic: empty split"
      | some nk =>
        if next_children.isEmpty || decide (BTREE_N + 1 < next_children.length) then
          .error "btree write assert failed"
        else do
          let st2 := { st1 with map := aset st1.map next_node_i (.node next_children) }
          let st3 ← insert_root st2 root nk.2 next_node_i
          write_node st3 node_i kept
    else write_node st node_i c'

/-- `insert_leaf` from `btree.rs` lines 262-289: insert the record in
key order into the leaf routing `key`; on overflow split at `⌈len/2⌉`,
seed the right half into a fresh block inheriting the old `next` link,
push the right half's first key into the internal level, and finally
write back the kept half pointing at the new leaf. -/
def insert_leaf (st : BtState) (root : Nat) (key : Int) (record : DataPointer) :
    Except String BtState := do
  let leaf_i ← seek_leaf st root key
  let (next0, records) ← read_leaf st leaf_i
  let index :=
    match records.findIdx? (fun r => decide (key < r.1)) with
    | some i => i
    | none => records.length
  let records' := records.insertIdx index (key, record)
  if BTREE_N + 1 < records'.length then
    let (next_leaf_i, st1) := bt_new_block st
    let half := (records'.length + 1) / 2
    let kept := records'.take half
    let next_records := records'.drop half
    match next_records.head? with
    | none => .error "panic: empty split"
    | some nr =>
      if next_records.isEmpty || decide (BTREE_N + 1 < next_records.length) then
        .error "btree write assert failed"
      else do
        let st2 := { st1 with map := aset st1.map next_leaf_i (.leaf next0 next_records) }
        let st3 ← insert_node st2 root nr.1 next_leaf_i
        write_leaf st3 leaf_i next_leaf_i kept
  else write_leaf st leaf_i next0 records'

/-- `insert_btree` from `btree.rs` lines 107-121: check uniqueness with
a fresh point-select, fail with "unique key exists" on a duplicate, else
descend and insert. -/
def insert_btree (st : BtState) (root : Nat) (key : Int) (record : DataPointer) :
    Except String BtState := do
  let (found, _) ← select_btree st root key .Initialized
  if found.isSome then .error "unique key exists"
  else insert_leaf st root key record

/-- `Bound<i64>` from the standard library, as used by
`select_range_btree`. -/
inductive RangeBound where
  | Included (v : Int)
  | Excluded (v : Int)
  | Unbounded
deriving DecidableEq

/-- `BTreeRangeState` from `btree.rs` (the `Running` stream is the
iterator's remaining records). -/
inductive BTreeRangeState where
  | Initialized
  | Running (next : Nat) (stream : List (Int × DataPointer))
deriving DecidableEq

/-- The in-stream scan of the `Running` arm of `select_range_btree`
(`btree.rs` lines 360-368): skip keys below the lower bound, break out
of the block loop past the upper bound, collect the rest.  Returns the
collected pointers, whether the loop broke, and the remaining stream. -/
def scan_records : List (Int × DataPointer) → Int → Int → List DataPointer →
    List DataPointer × Bool × List (Int × DataPointer)
  | [], _, _, acc => (acc, false, [])
  | (k, r) :: rest, lo, hi, acc =>
    if k < lo then scan_records rest lo hi acc
    else if hi < k then (acc, true, rest)
    else scan_records rest lo hi (acc ++ [r])

/-- The `'seek_block` loop of `select_range_btree` (`btree.rs` lines
359-379): scan the current stream, then follow the leaf chain; `fuel`
only bounds the chain walk and exceeds the length of every acyclic
chain. -/
def range_loop (st : BtState) (lo hi : Int) :
    Nat → Nat → List (Int × DataPointer) → List DataPointer →
    Except String (List DataPointer × Nat × List (Int × DataPointer))
  | fuel, next, stream, acc =>
    match scan_records stream lo hi acc with
    | (acc', broke, stream') =>
      if broke then .ok (acc', next, stream')
      else if next == 0 then .ok (acc', next, stream')
      else
        match aget st.map next with
        | some (.leaf nx rs) =>
          match fuel with
          | 0 => .error "leaf chain too long"
          | fuel' + 1 => range_loop st lo hi fuel' nx rs acc'
        | some (.node _) => .error "invalid block content"
        | none => .error "NotFound"

/-- `select_range_btree` from `btree.rs` lines 316-383.  Both
`left_bound` and `right_bound` are computed from the FIRST component of
the range pair (the Rust source references `range.0` in both matches —
lines 325-335 and 336-346).  The `Initialized` arm seeks the leaf for
the lower bound, arms the `Running` state and re-enters itself (the
Rust `Box::pin` self-call), which is inlined here as entering the
`Running` handler directly.  The `Running` arm collects the matching
records into `result` — and then discards them, answering `Ok(None)`
(line 380). -/
def select_range_btree (st : BtState) (root : Nat) (range : RangeBound × RangeBound)
    (state : BTreeRangeState) (fuel : Nat) :
    Except String (Option DataPointer × BTreeRangeState) :=
  if root == 0 then .ok (none, state)
  else
    match
      (match range.1 with
       | .Included v => some v
       | .Excluded v => if v == I64_MAX then none else some (v + 1)
       | .Unbounded => some I64_MIN) with
    | none => .ok (none, state)
    | some left_bound =>
      match
        (match range.1 with
         | .Included v => some v
         | .Excluded v => if v == I64_MIN then none else some (v - 1)
         | .Unbounded => some I64_MAX) with
      | none => .ok (none, state)
      | some right_bound =>
        match state with
        | .Initialized => do
          let leaf_i ← seek_leaf st root left_bound
          let (nx, rs) ← read_leaf st leaf_i
          match range_loop st left_bound right_bound fuel nx rs [] with
          | .ok (_result, next', stream') => .ok (none, .Running next' stream')
          | .error e => .error e
        | .Running next stream =>
          match range_loop st left_bound right_bound fuel next stream [] with
          | .ok (_result, next', stream') => .ok (none, .Running next' stream')
          | .error e => .error e

/-- The per-index maintenance step of `insert_into` (`data.rs` lines
194-219) for one `IndexInfo` and one assembled row: an integer key goes
into the B+tree (`new_btree` when the index has no root yet — the root
is patched into the `IndexInfo` and the schema marked dirty — else
`insert_btree`); a `Null` key and a non-null non-integer key are
rejected.  `record` is the row slot's `DataPointer`, captured before
the slot is written. -/
def index_row_step (st : BtState) (info : IndexInfo) (full_row : List Value)
    (record : DataPointer) : Except String (BtState × IndexInfo) :=
  match info.type_ with
  | .BTree =>
    match full_row.getD info.column_index Value.Null with
    | .Integer v =>
      if info.block == 0 then
        let (root, st') := new_btree st v record
        .ok (st', { info with block := root })
      else do
        let st' ← insert_btree st info.block v record
        .ok (st', info)
    | .Null => .error "indexed column must be non-null"
    | _ => .error "invalid value"

/-- The loop over a table's indices in `insert_into` (`data.rs` lines
194-220). -/
def index_row (st : BtState) :
    List IndexInfo → List Value → DataPointer → Except String (BtState × List IndexInfo)
  | [], _, _ => .ok (st, [])
  | info :: rest, row, record => do
    let (st1, info') ← index_row_step st info row record
    let (st2, rest') ← index_row st1 rest row record
    .ok (st2, info' :: rest')


/-- A three-level B+tree state at internal-node capacity, satisfying the
spec's shape invariants (three levels; leaves nonempty, strictly sorted
by key and singly linked in ascending order; every node and leaf holds
at most `BTREE_N + 1 = 409` entries; all keys unique; separators
strictly ascending with each child's keys inside its window): the
internal node holds 409 children with separators `1000·(i+1)`; every
leaf is a singleton except child 204, a full leaf of 409 records with
keys `204000..204408`. -/
def c6_children : List (Nat × Int) :=
  (List.range 409).map (fun i => (10 + i, 1000 * ((i : Int) + 1)))

/-- The leaves of `c6_state` (see `c6_children`). -/
def c6_leaf (i : Nat) : Nat × BtBlock :=
  (10 + i,
   .leaf (if i = 408 then 0 else 10 + i + 1)
     (if i = 204 then
        (List.range 409).map (fun (j : Nat) => (204000 + (j : Int), (⟨3, j⟩ : DataPointer)))
      else [((1000 * (i : Int)), (⟨3, i⟩ : DataPointer))]))

/-- Root block 1, internal node block 2, leaves 10..418, allocation
counter 500. -/
def c6_state : BtState :=
  ⟨(1, .node [(2, 0)]) :: (2, .node c6_children) :: (List.range 409).map c6_leaf, 500⟩

end Bt

end Aidb

/-! ## Theorems -/

namespace Aidb

namespace Exec

/-- C1 (counterexample to the claim as stated): under the derived
`Value` equality used by `execute_select`'s Selection arm, a row whose
compared value is `Null` does satisfy an `EqConst` constraint whose
literal is `Null`, two `Null` values do satisfy an `EqColumn`
constraint, and the Selection emits such a row — the claim says a
`Null`/`Null` comparison never holds. -/
theorem C1_null_eq_null_cex :
    constraint_holds [Value.Null] (.EqConst 0 Value.Null) = true
      ∧ constraint_holds [Value.Null, Value.Null] (.EqColumn 0 1) = true
      ∧ run_select 8 (.Selection [.EqConst 0 Value.Null] (.Source [[Value.Null]] 0))
          = [[Value.Null]] := by
  decide

/-- C1 (amended): a Selection node emits a row pulled from its inner plan
only if every constraint holds under the derived structural `Value`
equality; that equality is variant-respecting (`value_eq a b` holds
exactly when `a` and `b` are the same value), but `Null` IS equal to
`Null`. -/
theorem C1_selection_null_equality (fuel : Nat) (cs : List SelectionConstraint)
    (inner : Plan) (row : Row) (p' : Plan)
    (h : execute_select fuel (.Selection cs inner) = (some row, p')) :
    cs.all (constraint_holds row) = true
      ∧ value_eq Value.Null Value.Null = true
      ∧ (∀ a b : Value, value_eq a b = true ↔ a = b) := by
  have key : ∀ (f : Nat) (inn : Plan) (r : Row) (q : Plan),
      execute_select f (.Selection cs inn) = (some r, q) →
      cs.all (constraint_holds r) = true := by
    intro f
    induction f with
    | zero =>
      intro inn r q h
      simp [execute_select] at h
    | succ n ih =>
      intro inn r q h
      rw [execute_select] at h
      rcases hx : execute_select n inn with ⟨o, inner'⟩
      rw [hx] at h
      match o, h with
      | some row', h =>
        by_cases hc : cs.all (constraint_holds row') = true
        · simp [hc] at h
          rcases h with ⟨h1, _⟩
          subst h1
          exact hc
        · simp [hc] at h
          exact ih inner' r q h
      | none, h =>
        simp at h
  exact ⟨key fuel inner row p' h, by decide, fun a b => by simp [value_eq]⟩

/-- C1 witness: at `cs = [EqConst 0 Null]` over a single inner row
`[Null]`, the Selection emits the row, so the amended conclusion holds
at this concrete input. -/
theorem C1_selection_null_equality_witness :
    ([SelectionConstraint.EqConst 0 Value.Null]).all (constraint_holds [Value.Null]) = true
      ∧ value_eq Value.Null Value.Null = true
      ∧ (∀ a b : Value, value_eq a b = true ↔ a = b) :=
  C1_selection_null_equality 2 [.EqConst 0 Value.Null] (.Source [[Value.Null]] 0)
    [Value.Null] (.Selection [.EqConst 0 Value.Null] (.Source [[Value.Null]] 1)) rfl

/-- C5: executing `SELECT a.x, b.y FROM a JOIN b ON a.k = b.k` over a
one-row table `a = {(k=1, x="a")}` and a two-row table
`b = {(k=1, y="b1"), (k=1, y="b2")}` emits three rows — the pair
`("a","b2")` twice — because after the child for `a` is exhausted,
`CartesianProduct` resets it but leaves its `previous_row` slot stale
and re-enumerates it against the already-consumed `b` row.  The claim
(and spec scenario S6) requires each matching pair exactly once, i.e.
two rows here.  The one-row-tables and empty-table parts of the claim
do hold, as the last two conjuncts show. -/
theorem C5_cartesian_product_duplicate_pair :
    run_select 64 (.Projection [.Column 1, .Column 3] (.Selection [.EqColumn 0 2]
      (.CartesianProduct
        [.Source [[Value.Integer 1, Value.Text "a"]] 0,
         .Source [[Value.Integer 1, Value.Text "b1"], [Value.Integer 1, Value.Text "b2"]] 0]
        true [])))
      = [[Value.Text "a", Value.Text "b1"],
         [Value.Text "a", Value.Text "b2"],
         [Value.Text "a", Value.Text "b2"]]
      ∧ run_select 8 (.CartesianProduct
          [.Source [[Value.Integer 1]] 0, .Source [[Value.Integer 10]] 0] true [])
          = [[Value.Integer 1, Value.Integer 10]]
      ∧ run_select 8 (.CartesianProduct
          [.Source [[Value.Integer 1]] 0, .Source ([] : List Row) 0] true [])
          = [] := by
  decide

end Exec

namespace Planner

/-- C7: a `SELECT` whose targets are all constants or session variables
builds a logical plan with no tables and no constraints; the variable
`@@version_comment` evaluates to the text `"aidb"` and every other
variable to `Null`; such a query with a `WHERE` clause or a `JOIN`
clause fails with `"table required"`; and
`SELECT @@version_comment LIMIT 1` returns exactly the single row
`[[Text "aidb"]]` (for any schema lookup and any store contents). -/
theorem C7_const_only_select :
    (∀ (name : SqlSelectTarget → String) (lookup : String → Option Schema)
        (targets : List SqlSelectTarget) (limit : Option Nat),
        targets.all is_const_target = true →
        build_logical_plan name lookup targets none [] none limit
          = .ok (targets.map (const_header name),
                 ⟨[], targets.map const_column, [], limit⟩))
      ∧ (∀ v : String, variable_value v
            = if v = "@@version_comment" then Value.Text "aidb" else Value.Null)
      ∧ (∀ (name : SqlSelectTarget → String) (lookup : String → Option Schema)
            (targets : List SqlSelectTarget) (table : Option String)
            (join_on : List (String × SqlOn)) (w : SqlWhere) (limit : Option Nat),
            targets.all is_const_target = true →
            build_logical_plan name lookup targets table join_on (some w) limit
              = .error "table required")
      ∧ (∀ (name : SqlSelectTarget → String) (lookup : String → Option Schema)
            (targets : List SqlSelectTarget) (table : Option String)
            (j : String × SqlOn) (js : List (String × SqlOn)) (where_ : Option SqlWhere)
            (limit : Option Nat),
            targets.all is_const_target = true →
            build_logical_plan name lookup targets table (j :: js) where_ limit
              = .error "table required")
      ∧ (∀ (name : SqlSelectTarget → String) (lookup : String → Option Schema)
            (scan_rows : Nat → Nat → List Row) (btree_rows : Nat → Int → List Row),
            select_rows name lookup scan_rows btree_rows 8
              [.Variable "@@version_comment"] none [] none (some 1)
              = .ok ([⟨name (.Variable "@@version_comment"), .Text⟩],
                     [[Value.Text "aidb"]])) := by
  refine ⟨?_, fun v => rfl, ?_, ?_, ?_⟩
  · intro name lookup targets limit h
    simp [build_logical_plan, h]
  · intro name lookup targets table join_on w limit h
    simp [build_logical_plan, h]
  · intro name lookup targets table j js where_ limit h
    simp [build_logical_plan, h]
  · intro name lookup scan_rows btree_rows
    rfl

/-- C7 witness: the constant-only branch and the `"table required"`
error at concrete inputs. -/
theorem C7_const_only_select_witness :
    build_logical_plan (fun _ => "1") (fun _ => none) [.Const (Value.Integer 1)] none [] none none
      = .ok ([.Const (Value.Integer 1)].map (const_header (fun _ => "1")),
             ⟨[], [.Const (Value.Integer 1)].map const_column, [], none⟩)
      ∧ build_logical_plan (fun _ => "1") (fun _ => none) [.Const (Value.Integer 1)]
          (some "t") [] (some (.Rel (.Le (.Const Value.Null) (.Const Value.Null)))) none
          = .error "table required" :=
  ⟨C7_const_only_select.1 (fun _ => "1") (fun _ => none) [.Const (Value.Integer 1)] none rfl,
   C7_const_only_select.2.2.1 (fun _ => "1") (fun _ => none) [.Const (Value.Integer 1)]
     (some "t") [] (.Rel (.Le (.Const Value.Null) (.Const Value.Null))) none rfl⟩

end Planner

end Aidb

namespace Aidb.Drv

/-- Frame property of `get_block`: it never touches the store, the
transaction flag, or the superblock snapshot. -/
theorem get_block_frame (st : DrvState) (i : Nat) :
    (get_block st i).1.store = st.store
      ∧ (get_block st i).1.transaction_in_progress = st.transaction_in_progress
      ∧ (get_block st i).1.superblock_backup = st.superblock_backup := by
  unfold get_block
  rcases h : aget st.blocks i with _ | b
  · simp [h]
    rcases h2 : aget st.store i with _ | b2 <;> simp [h2]
  · simp [h]

/-- Frame property of the schema-chain walk: it never touches the
store, the transaction flag, or the superblock snapshot. -/
theorem load_schema_walk_frame (table : String) :
    ∀ (fuel : Nat) (st : DrvState) (idx : Nat),
      (load_schema_walk table fuel st idx).1.store = st.store
        ∧ (load_schema_walk table fuel st idx).1.transaction_in_progress
            = st.transaction_in_progress
        ∧ (load_schema_walk table fuel st idx).1.superblock_backup = st.superblock_backup := by
  intro fuel
  induction fuel with
  | zero => intro st idx; simp [load_schema_walk]
  | succ n ih =>
    intro st idx
    rw [load_schema_walk]
    by_cases h : (idx == 0) = true
    · simp [h]
    · simp only [h]
      rcases hg : get_block st idx with ⟨st1, r⟩
      have hf := get_block_frame st idx
      rw [hg] at hf
      rcases r with e | b
      · simpa using hf
      · rcases b with sb | s0 | bs
        · simpa using hf
        · simp only []
          by_cases hn : (({ s0 with block_index := idx } : Schema).name == table) = true
          · simp [hn]
            exact hf
          · simp only [hn, Bool.false_eq_true, if_false]
            refine ⟨?_, ?_, ?_⟩
            · rw [(ih _ _).1]
              simp only [put_schema, put_block]
              exact hf.1
            · rw [(ih _ _).2.1]
              simp only [put_schema, put_block]
              exact hf.2.1
            · rw [(ih _ _).2.2]
              simp only [put_schema, put_block]
              exact hf.2.2
        · simpa using hf

/-- Frame property of every cache call a statement can make: none
touches the store, the transaction flag, or the superblock snapshot. -/
theorem apply_op_frame (st : DrvState) (op : CacheOp) :
    (apply_op st op).1.store = st.store
      ∧ (apply_op st op).1.transaction_in_progress = st.transaction_in_progress
      ∧ (apply_op st op).1.superblock_backup = st.superblock_backup := by
  cases op with
  | new_block => simp [apply_op, new_block]
  | get_block i =>
    have hf := get_block_frame st i
    rcases hg : get_block st i with ⟨st1, r⟩
    rw [hg] at hf
    cases r <;> simp [apply_op, hg] <;> exact hf
  | put_block i b => simp [apply_op, put_block]
  | mark_block_dirty i => simp [apply_op, mark_block_dirty]
  | mark_superblock_dirty => simp [apply_op]
  | set_superblock sb => simp [apply_op]
  | get_schema table =>
    simp only [apply_op, get_schema]
    rcases h : aget st.schemas table with _ | s
    · simp only [h]
      have hf := load_schema_walk_frame table (chain_fuel st) st st.superblock.first_schema_block
      rcases hw : load_schema_walk table (chain_fuel st) st st.superblock.first_schema_block
        with ⟨st1, r⟩
      rw [hw] at hf
      cases r <;> simpa using hf
    · simp [h]
  | put_schema table s => simp [apply_op, put_schema]
  | mark_schema_dirty table => simp [apply_op, mark_schema_dirty]
  | fail e => simp [apply_op]

/-- Frame property of a whole statement body. -/
theorem run_ops_frame :
    ∀ (ops : List CacheOp) (st : DrvState),
      (run_ops st ops).1.store = st.store
        ∧ (run_ops st ops).1.transaction_in_progress = st.transaction_in_progress
        ∧ (run_ops st ops).1.superblock_backup = st.superblock_backup := by
  intro ops
  induction ops with
  | nil => intro st; simp [run_ops]
  | cons op rest ih =>
    intro st
    have hf := apply_op_frame st op
    rcases ha : apply_op st op with ⟨st1, r⟩
    rw [ha] at hf
    rcases r with e | u
    · simpa [run_ops, ha] using hf
    · have := ih st1
      simp only [run_ops, ha]
      exact ⟨this.1.trans hf.1, (this.2.1).trans hf.2.1, (this.2.2).trans hf.2.2⟩

end Aidb.Drv

namespace Aidb.Drv

/-- `submit` with nothing dirty writes nothing and changes nothing. -/
theorem submit_clean (st : DrvState) (h1 : st.superblock_dirty = false)
    (h2 : st.schemas_dirty = []) (h3 : st.blocks_dirty = []) :
    submit st = (st, .ok ()) := by
  obtain ⟨s1, s2, s3, s4, s5, s6, s7, s8, s9⟩ := st
  simp only at h1 h2 h3
  subst h1 h2 h3
  simp [submit, submit_schemas, submit_blocks]

/-- `query` on `START TRANSACTION` outside a transaction: snapshot the
superblock, raise the flag, and skip `submit`. -/
theorem query_start_transaction (st : DrvState) (h : st.transaction_in_progress = false) :
    query st .start_transaction
      = ({ st with superblock_backup := some st.superblock, transaction_in_progress := true },
         .ok (.Meta 0)) := by
  simp [query, dispatch, h]

/-- `query` on `ROLLBACK` inside a transaction: the caches and dirty
sets are cleared and the superblock is replaced by the snapshot taken at
the start of this very `ROLLBACK` statement — i.e. it keeps its current
value; the trailing `submit` is a no-op. -/
theorem query_rollback_in_txn (st : DrvState) (h : st.transaction_in_progress = true) :
    query st .rollback
      = ({ st with
             schemas := [], schemas_dirty := [], blocks := [], blocks_dirty := [],
             superblock_dirty := false, superblock_backup := none,
             transaction_in_progress := false }, .ok (.Meta 0)) := by
  have hs := submit_clean ({ st with
      schemas := [], schemas_dirty := [], blocks := [], blocks_dirty := [],
      superblock_dirty := false, superblock_backup := none,
      transaction_in_progress := false }) rfl rfl rfl
  simp [query, dispatch, h, hs]

/-- `query` on a data statement inside a transaction never touches the
store (no `submit` on success, and the failure rollback does not write),
and on success the transaction stays open. -/
theorem query_mutate_in_txn (st : DrvState) (ops : List CacheOp)
    (h : st.transaction_in_progress = true) :
    ((query st (.mutate ops)).1.store = st.store)
      ∧ (∀ resp, (query st (.mutate ops)).2 = .ok resp →
          (query st (.mutate ops)).1.transaction_in_progress = true) := by
  have hf := run_ops_frame ops ({ st with superblock_backup := some st.superblock })
  rcases hr : run_ops ({ st with superblock_backup := some st.superblock }) ops with ⟨st1, r⟩
  rw [hr] at hf
  have hst : st1.store = st.store := by simpa using hf.1
  have htxn1 : st1.transaction_in_progress = true := by
    have := hf.2.1; simp at this; simpa [h] using this
  have hbk : st1.superblock_backup = some st.superblock := by simpa using hf.2.2
  rcases r with e | u
  · simp [query, dispatch, hr, hst, hbk]
  · simp [query, dispatch, hr, htxn1, hst]

/-- Data statements driven through `query` inside a transaction leave
the store untouched, and keep the transaction open as long as they all
succeed. -/
theorem run_mutates_in_txn (progs : List (List CacheOp)) :
    ∀ st : DrvState, st.transaction_in_progress = true →
      (run_queries st (progs.map Stmt.mutate)).1.store = st.store
        ∧ ((run_queries st (progs.map Stmt.mutate)).2 = true →
            (run_queries st (progs.map Stmt.mutate)).1.transaction_in_progress = true) := by
  induction progs with
  | nil => intro st h; simpa [run_queries] using h
  | cons ops rest ih =>
    intro st h
    have hm := query_mutate_in_txn st ops h
    rcases hq : query st (.mutate ops) with ⟨st1, r⟩
    rw [hq] at hm
    rcases r with e | resp
    · simp only [List.map, run_queries, hq]
      exact ⟨hm.1, by simp⟩
    · have htxn1 : st1.transaction_in_progress = true := hm.2 resp rfl
      have := ih st1 htxn1
      simp only [List.map, run_queries, hq]
      exact ⟨this.1.trans hm.1, this.2⟩

end Aidb.Drv

namespace Aidb.Drv

/-- C3 (amended): for `START TRANSACTION; <mutating statements>;
ROLLBACK` driven through `query` (all statements succeeding), the
underlying blob store is left completely unchanged — in particular
byte-identical on every block dirtied during the transaction — and the
final state is the pre-`ROLLBACK` state with the block and schema caches
and all dirty sets cleared.  The in-memory superblock after `ROLLBACK`
equals the snapshot taken at the start of the `ROLLBACK` statement
itself (the record equality keeps the `superblock` field), NOT the
pre-transaction snapshot: `query` re-snapshots the superblock before
every statement, so in-transaction superblock changes (such as
`next_empty_block` bumps) survive the rollback. -/
theorem C3_transaction_rollback (st0 : DrvState) (progs : List (List CacheOp))
    (h0 : st0.transaction_in_progress = false)
    (hok : (run_queries st0 (Stmt.start_transaction :: progs.map Stmt.mutate)).2 = true) :
    query (run_queries st0 (Stmt.start_transaction :: progs.map Stmt.mutate)).1 Stmt.rollback
      = ({ (run_queries st0 (Stmt.start_transaction :: progs.map Stmt.mutate)).1 with
             schemas := [], schemas_dirty := [], blocks := [], blocks_dirty := [],
             superblock_dirty := false, superblock_backup := none,
             transaction_in_progress := false }, .ok (.Meta 0))
      ∧ (query (run_queries st0 (Stmt.start_transaction :: progs.map Stmt.mutate)).1
            Stmt.rollback).1.store = st0.store := by
  have hstart := query_start_transaction st0 h0
  have hrw : run_queries st0 (Stmt.start_transaction :: progs.map Stmt.mutate)
      = run_queries ({ st0 with
                         superblock_backup := some st0.superblock,
                         transaction_in_progress := true }) (progs.map Stmt.mutate) := by
    simp [run_queries, hstart]
  have hinv := run_mutates_in_txn progs ({ st0 with
                         superblock_backup := some st0.superblock,
                         transaction_in_progress := true }) (by simp)
  have hstore : (run_queries st0 (Stmt.start_transaction :: progs.map Stmt.mutate)).1.store
      = st0.store := by
    rw [hrw]
    simpa using hinv.1
  have htxn : (run_queries st0 (Stmt.start_transaction :: progs.map Stmt.mutate)).1.transaction_in_progress
      = true := by
    rw [hrw] at hok ⊢
    exact hinv.2 hok
  have hroll := query_rollback_in_txn _ htxn
  refine ⟨hroll, ?_⟩
  rw [hroll]
  simpa using hstore

/-- C3 (counterexample to the claim as stated): after
`START TRANSACTION; <allocate one block>; ROLLBACK` from a fresh state,
the in-memory `next_empty_block` is 2, not its pre-transaction value 1 —
the superblock does not revert to the pre-transaction snapshot. -/
theorem C3_next_empty_not_reverted_cex :
    (run_queries ⟨[], [], [], SuperBlock.default, false, [], [], false, none⟩
        [Stmt.start_transaction, Stmt.mutate [CacheOp.new_block], Stmt.rollback]).2 = true
      ∧ (run_queries ⟨[], [], [], SuperBlock.default, false, [], [], false, none⟩
          [Stmt.start_transaction, Stmt.mutate [CacheOp.new_block],
           Stmt.rollback]).1.superblock.next_empty_block = 2
      ∧ SuperBlock.default.next_empty_block = 1 := by
  decide

/-- C3 witness: the amended theorem applied to the concrete
one-allocation transaction; the store (empty before) is empty after. -/
theorem C3_transaction_rollback_witness :
    (query (run_queries ⟨[], [], [], SuperBlock.default, false, [], [], false, none⟩
        (Stmt.start_transaction :: [[CacheOp.new_block]].map Stmt.mutate)).1
        Stmt.rollback).1.store = ([] : List (Nat × DBlock)) :=
  (C3_transaction_rollback ⟨[], [], [], SuperBlock.default, false, [], [], false, none⟩
      [[CacheOp.new_block]] rfl (by decide)).2

/-- C4 (amended): when a statement fails inside a transaction, `query`
does NOT leave the state as it was: it forces the transaction flag on
and dispatches `ROLLBACK` itself, so the error comes back with the block
and schema caches and all dirty sets cleared, the superblock restored to
the statement-start snapshot, and the transaction closed.  The store is
untouched. -/
theorem C4_error_rolls_back (st : DrvState) (ops : List CacheOp) (e : String)
    (_htxn : st.transaction_in_progress = true)
    (herr : (run_ops ({ st with superblock_backup := some st.superblock }) ops).2
        = .error e) :
    query st (.mutate ops)
      = ({ (run_ops ({ st with superblock_backup := some st.superblock }) ops).1 with
             schemas := [], schemas_dirty := [], blocks := [], blocks_dirty := [],
             superblock := st.superblock, superblock_dirty := false,
             superblock_backup := none, transaction_in_progress := false },
         .error e)
      ∧ (query st (.mutate ops)).1.store = st.store := by
  have hf := run_ops_frame ops ({ st with superblock_backup := some st.superblock })
  rcases hr : run_ops ({ st with superblock_backup := some st.superblock }) ops with ⟨st1, r⟩
  rw [hr] at hf herr
  cases r with
  | ok u => simp at herr
  | error e' =>
    have he : e' = e := by simpa using herr
    subst he
    have hbk : st1.superblock_backup = some st.superblock := by simpa using hf.2.2
    have hst : st1.store = st.store := by simpa using hf.1
    constructor
    · simp [query, dispatch, hr, hbk]
    · simp [query, dispatch, hr, hbk, hst]

/-- C4 (counterexample to the claim as stated): a failing statement
inside a transaction comes back with the block cache emptied (it held
block 5), the dirty set emptied, and the transaction flag off — not
with the state left as it was at the point of the error. -/
theorem C4_error_in_txn_cex :
    (query ⟨[], [(5, DBlock.dat [1])], [5], SuperBlock.default, false, [], [], true, none⟩
        (Stmt.mutate [CacheOp.fail "boom"])).2 = Except.error "boom"
      ∧ (query ⟨[], [(5, DBlock.dat [1])], [5], SuperBlock.default, false, [], [], true, none⟩
          (Stmt.mutate [CacheOp.fail "boom"])).1.blocks = []
      ∧ (query ⟨[], [(5, DBlock.dat [1])], [5], SuperBlock.default, false, [], [], true, none⟩
          (Stmt.mutate [CacheOp.fail "boom"])).1.blocks_dirty = []
      ∧ (query ⟨[], [(5, DBlock.dat [1])], [5], SuperBlock.default, false, [], [], true, none⟩
          (Stmt.mutate [CacheOp.fail "boom"])).1.transaction_in_progress = false
      ∧ DrvState.blocks ⟨[], [(5, DBlock.dat [1])], [5], SuperBlock.default, false, [], [],
          true, none⟩ ≠ [] := by
  decide

/-- C4 witness: the amended theorem applied to a concrete failing
statement inside a transaction. -/
theorem C4_error_rolls_back_witness :
    (query ⟨[], [(5, DBlock.dat [1])], [5], SuperBlock.default, false, [], [], true, none⟩
        (Stmt.mutate [CacheOp.fail "boom"])).1.store = ([] : List (Nat × DBlock)) :=
  (C4_error_rolls_back ⟨[], [(5, DBlock.dat [1])], [5], SuperBlock.default, false, [], [],
      true, none⟩ [CacheOp.fail "boom"] "boom" rfl rfl).2

/-- C10: `FLUSH TABLES` dispatched while a transaction is in progress
returns `Meta{affected_rows: 0}` and leaves the whole state — in
particular the schema cache and the block cache — unchanged; with no
transaction in progress it clears exactly those two caches. -/
theorem C10_flush_tables_in_txn (st : DrvState) :
    (st.transaction_in_progress = true →
        dispatch st .flush_tables = (st, .ok (.Meta 0)))
      ∧ (st.transaction_in_progress = false →
        dispatch st .flush_tables
          = ({ st with schemas := [], blocks := [] }, .ok (.Meta 0))) := by
  constructor <;> intro h <;> simp [dispatch, h]

/-- C10 witness: both branches at concrete states. -/
theorem C10_flush_tables_in_txn_witness :
    dispatch ⟨[], [(5, DBlock.dat [1])], [], SuperBlock.default, false,
        [("t", ⟨0, 0, "t", [], [], 0⟩)], [], true, none⟩ Stmt.flush_tables
      = (⟨[], [(5, DBlock.dat [1])], [], SuperBlock.default, false,
          [("t", ⟨0, 0, "t", [], [], 0⟩)], [], true, none⟩, .ok (.Meta 0))
      ∧ dispatch ⟨[], [(5, DBlock.dat [1])], [], SuperBlock.default, false,
          [("t", ⟨0, 0, "t", [], [], 0⟩)], [], false, none⟩ Stmt.flush_tables
        = ({ (⟨[], [(5, DBlock.dat [1])], [], SuperBlock.default, false,
              [("t", ⟨0, 0, "t", [], [], 0⟩)], [], false, none⟩ : DrvState) with
              schemas := [], blocks := [] }, .ok (.Meta 0)) :=
  ⟨(C10_flush_tables_in_txn _).1 rfl, (C10_flush_tables_in_txn _).2 rfl⟩

end Aidb.Drv

namespace Aidb.Txt

/-- A normalised block buffer always has exactly `BLOCK_SIZE` bytes. -/
theorem resize_block_length (b : List Nat) : (resize_block b).length = BLOCK_SIZE := by
  simp [resize_block]
  omega

/-- `write_all` succeeds exactly when the payload fits the buffer. -/
theorem write_all_fits (block : List Nat) (offset : Nat) (s : List Nat)
    (h : offset + s.length ≤ block.length) :
    write_all block offset s
      = .ok (block.take offset ++ s ++ block.drop (offset + s.length)) := by
  unfold write_all
  rw [if_neg (not_lt.mpr h)]

/-- C8: `insert_text` returns the sentinel pointer `(0,0)` for the
empty string; fails with `"text too long"` when the payload exceeds the
block size; otherwise allocates a fresh block exactly when the current
text block is `0` or its remaining space is smaller than the payload
(writing at offset 0 of the fresh block), else appends at
`next_text_offset` of the current text block — and in every successful
case `offset + len ≤ BLOCK_SIZE`, so a stored text payload never
crosses a block boundary. -/
theorem C8_insert_text (st : TxtState) (s : List Nat)
    (hoff : st.superblock.next_text_offset ≤ BLOCK_SIZE)
    (hcache : (aget st.blocks st.superblock.next_text_block).all
        (fun b => b.length == BLOCK_SIZE) = true)
    (hpresent : st.superblock.next_text_block ≠ 0 →
        ((aget st.blocks st.superblock.next_text_block).isSome
          || (aget st.store st.superblock.next_text_block).isSome) = true) :
    (s = [] → insert_text st s = (st, .ok ⟨0, 0⟩))
      ∧ (BLOCK_SIZE < s.length → insert_text st s = (st, .error "text too long"))
      ∧ (s ≠ [] → s.length ≤ BLOCK_SIZE →
          ((st.superblock.next_text_block = 0
              ∨ BLOCK_SIZE - st.superblock.next_text_offset < s.length) →
            (insert_text st s).2 = .ok ⟨st.superblock.next_empty_block, 0⟩)
          ∧ (st.superblock.next_text_block ≠ 0 →
              ¬ (BLOCK_SIZE - st.superblock.next_text_offset < s.length) →
              (insert_text st s).2
                = .ok ⟨st.superblock.next_text_block, st.superblock.next_text_offset⟩)
          ∧ (∀ (ptr : DataPointer) (st' : TxtState), insert_text st s = (st', .ok ptr) →
              ptr.offset + s.length ≤ BLOCK_SIZE)) := by
  refine ⟨?_, ?_, ?_⟩
  · intro h
    subst h
    simp [insert_text]
  · intro h
    have hne : ¬ (s.isEmpty = true) := by
      cases s with
      | nil => simp [BLOCK_SIZE] at h
      | cons a t => simp
    unfold insert_text
    rw [if_neg hne, if_pos h]
  · intro hnil hlen
    have hne : ¬ (s.isEmpty = true) := by
      cases s with
      | nil => simp at hnil
      | cons a t => simp
    have hnotlong : ¬ BLOCK_SIZE < s.length := not_lt.mpr hlen
    refine ⟨?_, ?_, ?_⟩
    · intro hfresh
      have hcond : (st.superblock.next_text_block == 0
          || decide (BLOCK_SIZE - st.superblock.next_text_offset < s.length)) = true := by
        rcases hfresh with h | h
        · simp [h]
        · simp [h]
      unfold insert_text
      rw [if_neg hne, if_neg hnotlong]
      unfold text_target
      rw [if_pos hcond]
      simp only [new_block]
      rw [write_all_fits _ _ _ (by rw [List.length_replicate]; omega)]
    · intro hnz hfit
      have hcond : (st.superblock.next_text_block == 0
          || decide (BLOCK_SIZE - st.superblock.next_text_offset < s.length)) = false := by
        simp [hnz, hfit]
      unfold insert_text
      rw [if_neg hne, if_neg hnotlong]
      unfold text_target
      rw [if_neg (by simp [hcond])]
      unfold get_block
      have hget := hpresent hnz
      rcases hb : aget st.blocks st.superblock.next_text_block with _ | b
      · rcases hs : aget st.store st.superblock.next_text_block with _ | b2
        · rw [hb, hs] at hget; simp at hget
        · simp only [hb, hs]
          rw [write_all_fits _ _ _ (by rw [resize_block_length]; omega)]
      · simp only [hb]
        have hlenb : b.length = BLOCK_SIZE := by
          rw [hb] at hcache; simpa using hcache
        rw [write_all_fits _ _ _ (by rw [hlenb]; omega)]
    · intro ptr stf hrun
      unfold insert_text at hrun
      rw [if_neg hne, if_neg hnotlong] at hrun
      unfold text_target at hrun
      by_cases hcond : (st.superblock.next_text_block == 0
          || decide (BLOCK_SIZE - st.superblock.next_text_offset < s.length)) = true
      · rw [if_pos hcond] at hrun
        simp only [new_block] at hrun
        rw [write_all_fits _ _ _ (by rw [List.length_replicate]; omega)] at hrun
        have hp : ptr = ⟨st.superblock.next_empty_block, 0⟩ :=
          ((Prod.mk.injEq _ _ _ _).mp hrun).2 |> (fun h => by
            injection h with h2
            exact h2.symm)
        subst hp
        simpa using hlen
      · rw [if_neg hcond] at hrun
        have hcond' := hcond
        simp only [Bool.or_eq_true, not_or, beq_iff_eq, decide_eq_true_eq] at hcond'
        unfold get_block at hrun
        rcases hb : aget st.blocks st.superblock.next_text_block with _ | b
        · rcases hs : aget st.store st.superblock.next_text_block with _ | b2
          · rw [hb, hs] at hrun
            simp at hrun
          · rw [hb, hs] at hrun
            simp only at hrun
            rw [write_all_fits _ _ _ (by rw [resize_block_length]; omega)] at hrun
            have hp : ptr
                = ⟨st.superblock.next_text_block, st.superblock.next_text_offset⟩ := by
              have := ((Prod.mk.injEq _ _ _ _).mp hrun).2
              injection this with h2
              exact h2.symm
            subst hp
            simp only []
            omega
        · rw [hb] at hrun
          simp only at hrun
          have hlenb : b.length = BLOCK_SIZE := by
            rw [hb] at hcache; simpa using hcache
          rw [write_all_fits _ _ _ (by rw [hlenb]; omega)] at hrun
          have hp : ptr
              = ⟨st.superblock.next_text_block, st.superblock.next_text_offset⟩ := by
            have := ((Prod.mk.injEq _ _ _ _).mp hrun).2
            injection this with h2
            exact h2.symm
          subst hp
          simp only []
          omega

/-- C8 witness: appending two bytes at offset 10 of text block 3. -/
theorem C8_insert_text_witness :
    (insert_text ⟨⟨5, 0, 0, 3, 10⟩, false, [(3, [0])], [], []⟩ [7, 7]).2
      = .ok ⟨3, 10⟩ :=
  ((C8_insert_text ⟨⟨5, 0, 0, 3, 10⟩, false, [(3, [0])], [], []⟩ [7, 7]
      (by decide) (by decide) (by decide)).2.2 (by decide) (by decide)).2.1
    (by decide) (by decide)

end Aidb.Txt

namespace Aidb.Bt

/-- `Except` bind on a success. -/
theorem except_bind_ok {α β : Type} (a : α) (f : α → Except String β) :
    (Except.ok a >>= f) = f a := rfl

/-- `Except` bind on a failure. -/
theorem except_bind_error {α β : Type} (e : String) (f : α → Except String β) :
    ((Except.error e : Except String α) >>= f) = .error e := rfl

/-- C2: `select_range_btree` NEVER yields a data pointer — every
successful call answers `none` whatever the tree, range and state: the
`Running` arm collects the matching records into a local vector and
then discards it, returning `Ok(None)` (btree.rs line 380); moreover
the upper bound is computed from the pair's first component.  The
second conjunct evaluates the failing input: a tree freshly built by
`new_btree` with key 1 and pointer (7,42), ranged over
`(Unbounded, Unbounded)`, yields nothing, while the claim requires
exactly the pointer (7,42). -/
theorem C2_select_range_btree_never_yields :
    (∀ (st : BtState) (root : Nat) (range : RangeBound × RangeBound)
        (state : BTreeRangeState) (fuel : Nat) (out : Option DataPointer × BTreeRangeState),
        select_range_btree st root range state fuel = .ok out → out.1 = none)
      ∧ select_range_btree (new_btree ⟨[], 1⟩ 1 ⟨7, 42⟩).2 (new_btree ⟨[], 1⟩ 1 ⟨7, 42⟩).1
          (RangeBound.Unbounded, RangeBound.Unbounded) .Initialized 4
          = .ok (none, .Running 0 []) := by
  constructor
  · intro st root range state fuel out h
    unfold select_range_btree at h
    split at h
    · cases h; rfl
    · split at h
      · cases h; rfl
      · split at h
        · cases h; rfl
        · split at h
          · rcases hsk : seek_leaf st root _ with e | leaf_i
            · rw [hsk] at h
              simp only [except_bind_error] at h
              cases h
            · rw [hsk] at h
              simp only [except_bind_ok] at h
              rcases hrl : read_leaf st leaf_i with e2 | nxrs
              · rw [hrl] at h
                simp only [except_bind_error] at h
                cases h
              · rw [hrl] at h
                simp only [except_bind_ok] at h
                rcases nxrs with ⟨nx, rs⟩
                split at h
                · cases h; rfl
                · cases h
          · split at h
            · cases h; rfl
            · cases h
  · decide

/-- C2 witness: the never-yields theorem applied at the failing input
with its hypothesis discharged by evaluation. -/
theorem C2_select_range_btree_never_yields_witness :
    ((none, BTreeRangeState.Running 0 []) : Option DataPointer × BTreeRangeState).1
      = none :=
  C2_select_range_btree_never_yields.1 (new_btree ⟨[], 1⟩ 1 ⟨7, 42⟩).2
    (new_btree ⟨[], 1⟩ 1 ⟨7, 42⟩).1 (RangeBound.Unbounded, RangeBound.Unbounded)
    .Initialized 4 (none, .Running 0 []) (by decide)

/-- C9 (counterexample to the claim as stated): a non-null, non-integer
indexed value makes the index-maintenance step of `insert_into` fail
with `"invalid value"`, not `"datatype mismatch"` as the claim says. -/
theorem C9_invalid_value_cex :
    index_row_step ⟨[], 1⟩ ⟨0, .BTree, 0⟩ [Value.Real 1] ⟨5, 10⟩
      = .error "invalid value"
      ∧ "invalid value" ≠ "datatype mismatch" := by
  constructor
  · decide
  · decide

/-- C9 (amended): during `insert_into` index maintenance, a row whose
indexed column holds `Null` fails with
`"indexed column must be non-null"`, and a row whose indexed column
holds a non-null, non-integer value (`Real` or `Text`) fails with
`"invalid value"` — in both cases before any tree block is touched. -/
theorem C9_index_key_errors (st : BtState) (ci b : Nat) (row : List Value)
    (record : DataPointer) :
    ((row.getD ci Value.Null = Value.Null) →
        index_row_step st ⟨ci, .BTree, b⟩ row record
          = .error "indexed column must be non-null")
      ∧ (∀ q : Rat, row.getD ci Value.Null = .Real q →
          index_row_step st ⟨ci, .BTree, b⟩ row record = .error "invalid value")
      ∧ (∀ t : String, row.getD ci Value.Null = .Text t →
          index_row_step st ⟨ci, .BTree, b⟩ row record = .error "invalid value") := by
  refine ⟨fun h => ?_, fun q h => ?_, fun t h => ?_⟩ <;>
    · simp only [List.getD_eq_getElem?_getD] at h
      simp [index_row_step, h]

/-- C9 witness: both error arms at concrete inputs. -/
theorem C9_index_key_errors_witness :
    index_row_step ⟨[], 1⟩ ⟨0, .BTree, 7⟩ [Value.Null] ⟨5, 10⟩
      = .error "indexed column must be non-null"
      ∧ index_row_step ⟨[], 1⟩ ⟨0, .BTree, 7⟩ [Value.Text "x"] ⟨5, 10⟩
        = .error "invalid value" :=
  ⟨(C9_index_key_errors ⟨[], 1⟩ 0 7 [Value.Null] ⟨5, 10⟩).1 rfl,
   (C9_index_key_errors ⟨[], 1⟩ 0 7 [Value.Text "x"] ⟨5, 10⟩).2.2 "x" rfl⟩

end Aidb.Bt

namespace Aidb.Bt

section

set_option maxRecDepth 40000

set_option maxHeartbeats 2000000

/-- C6: the uniqueness half of the claim holds — inserting key 204000,
which a point-select finds, fails with `"unique key exists"` (and the
failing call only reads: every `get_block` is matched by a `put_block`
before the error) — but the success half fails: key 204500 is absent
(first conjunct), `insert_btree` returns `Ok` (third conjunct, outer
`.ok`), yet a point-select on the resulting tree still finds nothing.
The insert overflows the full leaf (child 204), the new leaf overflows
the internal node, and the internal split promotes
`next_children.first().1` (btree.rs line 217) — the upper-bound
separator of the first moved child — instead of the boundary separator
of the last kept child, so the root routes key 204500 to the left node
while its record sits under the right one. -/
theorem C6_node_split_loses_inserted_record :
    select_btree c6_state 1 204500 .Initialized = .ok (none, .Done)
      ∧ insert_btree c6_state 1 204000 ⟨0, 0⟩ = .error "unique key exists"
      ∧ Except.map (fun st' => select_btree st' 1 204500 .Initialized)
          (insert_btree c6_state 1 204500 ⟨99, 7⟩) = .ok (.ok (none, .Done)) := by
  refine ⟨?_, ?_, ?_⟩ <;> decide

end

end Aidb.Bt
